import Mathlib

/-!
# Verification of the Banner component (src/packages/react/src/Banner/Banner.tsx)

Shallow embedding of the Banner compound component. Rendered output is
modelled as a tree of nodes; JSX attribute lists are ordered, and the
effective value of an attribute is the LAST occurrence (JSX semantics:
`<div {...rest} id={x}>` lets `id={x}` win over any `id` inside `rest`).
Event callbacks are modelled by their presence only (`onDismiss : Bool`);
React context is an `Option BannerContextValue` (null outside a provider);
a component that throws on render is modelled in `Except String`.
-/

/-- The five-way variant enum (Banner.tsx line 8). -/
inductive BannerVariant where
  | critical
  | info
  | success
  | upsell
  | warning
deriving DecidableEq, Repr

/-- The string form of a variant, as it appears in the `data-variant` attribute. -/
def BannerVariant.name : BannerVariant → String
  | .critical => "critical"
  | .info => "info"
  | .success => "success"
  | .upsell => "upsell"
  | .warning => "warning"

/-- The octicons used by the Banner (Banner.tsx line 4 import). -/
inductive Icon where
  | AlertIcon
  | InfoIcon
  | StopIcon
  | CheckCircleIcon
  | XIcon
deriving DecidableEq, Repr

/-- The fixed variant-to-icon table (Banner.tsx lines 53-59). -/
def iconForVariant : BannerVariant → Icon
  | .critical => .StopIcon
  | .info => .InfoIcon
  | .success => .CheckCircleIcon
  | .upsell => .InfoIcon
  | .warning => .AlertIcon

/-- A rendered tree node: a DOM-like element with an ordered attribute list,
a text node, or an icon element. Component elements (Button, IconButton) are
kept as elements with the component name as tag. -/
inductive Node where
  | element (tag : String) (attrs : List (String × String)) (children : List Node)
  | text (s : String)
  | icon (i : Icon)
deriving Repr

/-- Effective value of a JSX attribute list: the last occurrence of the key
wins, as with JSX props where a later prop overrides an earlier spread. -/
def getAttr : List (String × String) → String → Option String
  | [], _ => none
  | (k, v) :: rest, key =>
    match getAttr rest key with
    | some v' => some v'
    | none => if k = key then some v else none

/-- Effective attribute of a rendered node. -/
def Node.attr (n : Node) (key : String) : Option String :=
  match n with
  | .element _ attrs _ => getAttr attrs key
  | _ => none

/-- Child list of a rendered node. -/
def Node.childNodes : Node → List Node
  | .element _ _ cs => cs
  | _ => []

mutual
/-- Number of elements in a tree whose effective `id` attribute equals `i`
(the model of how many DOM elements carry a given identifier). -/
def Node.countId (i : String) : Node → Nat
  | .element _ attrs children =>
    (if getAttr attrs "id" = some i then 1 else 0) + countIdList i children
  | .text _ => 0
  | .icon _ => 0

/-- The function `Node.countId` summed over a list of sibling nodes. -/
def countIdList (i : String) : List Node → Nat
  | [] => 0
  | n :: ns => Node.countId i n + countIdList i ns
end

/-- The `clsx(base, className)` call as used in the source: the fixed class merged
with an optional caller-supplied class. -/
def cx (base : String) : Option String → String
  | some c => base ++ " " ++ c
  | none => base

/-- The context value published by the Banner root (Banner.tsx lines 317-318):
only the identifier generated at mount. -/
structure BannerContextValue where
  titleId : String
deriving DecidableEq, Repr

/-- The hook `useBanner` (Banner.tsx lines 320-326): reads the context; returns the
value under a provider, throws the ContextMisuse error outside one. -/
def useBanner : Option BannerContextValue → Except String BannerContextValue
  | some v => .ok v
  | none => .error "Component must be used within a <Banner> component"

/-- The heading rendered by BannerTitle once the context read has succeeded
(Banner.tsx lines 260-264): `<Heading {...rest} id={banner.titleId}
className={cx('BannerTitle', className)}>` with the heading tag defaulting
to h2. -/
def bannerTitleView (banner : BannerContextValue) (heading : Option String)
    (className : Option String) (restAttrs : List (String × String))
    (content : String) : Node :=
  .element (heading.getD "h2")
    (restAttrs ++ [("id", banner.titleId), ("className", cx "BannerTitle" className)])
    [.text content]

/-- The `BannerTitle` sub-component (Banner.tsx lines 256-265): calls `useBanner`, so it throws
when rendered outside a Banner provider. -/
def BannerTitle (ctx : Option BannerContextValue) (heading : Option String)
    (className : Option String) (restAttrs : List (String × String))
    (content : String) : Except String Node :=
  (useBanner ctx).map fun b => bannerTitleView b heading className restAttrs content

/-- The `BannerDescription` sub-component (Banner.tsx lines 269-275): purely presentational,
never reads the context; `<div {...rest} className={cx('BannerDescription',
className)}>`. -/
def BannerDescription (className : Option String)
    (restAttrs : List (String × String)) (content : String) : Node :=
  .element "div" (restAttrs ++ [("className", cx "BannerDescription" className)])
    [.text content]

/-- Renders an optional React child: `{x ?? null}` renders nothing when the
value is nullish. -/
def optList : Option Node → List Node
  | some n => [n]
  | none => []

/-- The first arrangement inside BannerActions (Banner.tsx lines 285-288):
marked `data-hide-on-sm`, ordered (secondary, then primary). -/
def hideOnSmArrangement (primaryAction secondaryAction : Option Node) : Node :=
  .element "div" [("className", "BannerActionsContainer"), ("data-hide-on-sm", "")]
    (optList secondaryAction ++ optList primaryAction)

/-- The second arrangement inside BannerActions (Banner.tsx lines 289-292):
marked `data-hide-on-md`, ordered (primary, then secondary). -/
def hideOnMdArrangement (primaryAction secondaryAction : Option Node) : Node :=
  .element "div" [("className", "BannerActionsContainer"), ("data-hide-on-md", "")]
    (optList primaryAction ++ optList secondaryAction)

/-- The `BannerActions` sub-component (Banner.tsx lines 282-295): always renders both ordering
subtrees; no context read, no conditional mounting. -/
def BannerActions (primaryAction secondaryAction : Option Node) : Node :=
  .element "div" [("className", "BannerActions")]
    [hideOnSmArrangement primaryAction secondaryAction,
     hideOnMdArrangement primaryAction secondaryAction]

/-- Whether an element is visible at a given viewport width, from the
StyledBanner CSS (Banner.tsx lines 211-232): by default (below the 544px
breakpoint) `[data-hide-on-sm]` is `display: none`; at or above the
breakpoint `[data-hide-on-sm]` becomes `display: flex` and
`[data-hide-on-md]` becomes `display: none`. `wide` means the viewport is at
or above the breakpoint. -/
def visibleAtWidth (wide : Bool) (n : Node) : Bool :=
  match n with
  | .element _ attrs _ =>
    if (getAttr attrs "data-hide-on-sm").isSome then wide
    else if (getAttr attrs "data-hide-on-md").isSome then !wide
    else true
  | _ => true

/-- The `BannerPrimaryAction` sub-component (Banner.tsx lines 299-305):
`<Button className={cx('BannerPrimaryAction', className)} variant="default"
{...rest}>`. Note that `rest` is spread AFTER the fixed variant. The TS prop
type omits `variant`, so `restAttrs` never carries it in typed callers, but
the runtime destructuring does not strip it. -/
def BannerPrimaryAction (className : Option String)
    (restAttrs : List (String × String)) (children : List Node) : Node :=
  .element "Button"
    ([("className", cx "BannerPrimaryAction" className), ("variant", "default")] ++ restAttrs)
    children

/-- The `BannerSecondaryAction` sub-component (Banner.tsx lines 309-315):
`<Button className={cx('BannerPrimaryAction', className)} variant="invisible"
{...rest}>` — it reuses the `BannerPrimaryAction` class name. -/
def BannerSecondaryAction (className : Option String)
    (restAttrs : List (String × String)) (children : List Node) : Node :=
  .element "Button"
    ([("className", cx "BannerPrimaryAction" className), ("variant", "invisible")] ++ restAttrs)
    children

/-- A user-supplied child of the Banner root: a `Banner.Title` invocation,
a `Banner.Description` invocation, or opaque renderable content. Opaque
content is modelled as text because a literal child cannot reference the
identifier generated at mount (`useId`), so it never carries an `id`
attribute colliding with it. -/
inductive BannerChild where
  | titleChild (heading : Option String) (className : Option String)
      (restAttrs : List (String × String)) (content : String)
  | descriptionChild (className : Option String)
      (restAttrs : List (String × String)) (content : String)
  | content (s : String)

/-- Whether a Banner child is a `Banner.Title` invocation. -/
def BannerChild.isTitle : BannerChild → Bool
  | .titleChild .. => true
  | _ => false

/-- Rendering a Banner child in a render environment whose BannerContext is
`ctx` (Banner.tsx lines 256-295): a Title child goes through `useBanner` and
may throw; Description children and opaque content never read the context. -/
def renderBannerChild (ctx : Option BannerContextValue) :
    BannerChild → Except String Node
  | .titleChild h c r s => BannerTitle ctx h c r s
  | .descriptionChild c r s => .ok (BannerDescription c r s)
  | .content s => .ok (.text s)

/-- The view of a Banner child inside a Banner provider holding `v`. -/
def bannerChildView (v : BannerContextValue) : BannerChild → Node
  | .titleChild h c r s => bannerTitleView v h c r s
  | .descriptionChild c r s => BannerDescription c r s
  | .content s => .text s

/-- The Banner prop set (Banner.tsx lines 10-51, destructured at line 62).
`onDismiss` records the presence of the callback; `rest` is the pass-through
attribute spread; `variant := none` means the prop was omitted, in which
case the destructuring default `info` applies. -/
structure BannerProps where
  description : Option String := none
  icon : Option Icon := none
  onDismiss : Bool := false
  primaryAction : Option Node := none
  secondaryAction : Option Node := none
  title : Option String := none
  variant : Option BannerVariant := none
  rest : List (String × String) := []
  children : List BannerChild := []

/-- The resolved variant: the prop, defaulting to `info` (line 62). -/
def resolvedVariant (p : BannerProps) : BannerVariant :=
  p.variant.getD .info

/-- The gate `dismissible` (Banner.tsx line 71): variant is not critical AND the
dismiss callback is present. -/
def dismissible (p : BannerProps) : Bool :=
  (resolvedVariant p != .critical) && p.onDismiss

/-- The gate `hasActions` (Banner.tsx line 72): some action descriptor is present. -/
def hasActions (p : BannerProps) : Bool :=
  p.primaryAction.isSome || p.secondaryAction.isSome

/-- The container's attribute list (Banner.tsx line 90): the pass-through
spread first, then the fixed attributes `aria-labelledby={titleId}`,
`data-variant={variant}`, `tabIndex={-1}` (the `as="section"` prop is
consumed by the styling wrapper and becomes the element tag). -/
def bannerSectionAttrs (p : BannerProps) (titleId : String) :
    List (String × String) :=
  p.rest ++
    [("aria-labelledby", titleId),
     ("data-variant", (resolvedVariant p).name),
     ("tabIndex", "-1")]

/-- The icon slot (Banner.tsx line 91): `{icon ?? iconForVariant[variant]}`. -/
def bannerIconSlot (p : BannerProps) : Node :=
  .element "div" [("className", "BannerIcon")]
    [.icon (p.icon.getD (iconForVariant (resolvedVariant p)))]

/-- The content block (Banner.tsx lines 93-97): the title prop rendered
through `BannerTitle` when truthy, the description prop rendered through
`BannerDescription` when truthy, then the children — all inside the provider
publishing `{titleId}`. -/
def bannerContentSlot (p : BannerProps) (titleId : String) : Node :=
  .element "div" [("className", "BannerContent")]
    ((match p.title with
      | some t => [bannerTitleView ⟨titleId⟩ none none [] t]
      | none => []) ++
     (match p.description with
      | some d => [BannerDescription none [] d]
      | none => []) ++
     p.children.map (bannerChildView ⟨titleId⟩))

/-- The container block (Banner.tsx lines 92-99): content, then the actions
region exactly when `hasActions`. -/
def bannerContainerSlot (p : BannerProps) (titleId : String) : Node :=
  .element "div" [("className", "BannerContainer")]
    ([bannerContentSlot p titleId] ++
      if hasActions p then [BannerActions p.primaryAction p.secondaryAction]
      else [])

/-- The dismiss control (Banner.tsx lines 100-108): an IconButton with the
fixed accessible label, class, icon and variant; the `onClick={onDismiss}`
callback is opaque and not part of the rendered shape. -/
def bannerDismissControl : Node :=
  .element "IconButton"
    [("aria-label", "Dismiss banner"), ("className", "BannerDismiss"),
     ("icon", "XIcon"), ("variant", "invisible")] []

/-- The Banner root render (Banner.tsx lines 88-111). `titleId` is the
identifier produced by `useId` at mount (line 65); the provider publishes
`{titleId}` to the subtree, so every Title child binds it. -/
def Banner (p : BannerProps) (titleId : String) : Node :=
  .element "section" (bannerSectionAttrs p titleId)
    ([bannerIconSlot p, bannerContainerSlot p titleId] ++
      if dismissible p then [bannerDismissControl] else [])

/-- The `__DEV__` flag only gates the post-mount effect (line 74); the JSX
returned at lines 88-111 never reads it, so the render output of a build is
the same function of the props in development and production. -/
def bannerRenderInBuild (dev : Bool) (p : BannerProps) (titleId : String) :
    Node :=
  Banner p titleId

/-- The post-mount development check (Banner.tsx lines 74-86): in a
development build, after commit, look up the generated identifier in the
committed tree (`document.getElementById(titleId)`) and throw the
MissingAccessibleTitle error when no element carries it; in production the
effect is never registered. -/
def devTitleCheck (dev : Bool) (dom : Node) (titleId : String) :
    Option String :=
  if dev then
    if Node.countId titleId dom = 0 then
      some "The Banner component requires a title to be provided as the `title` prop or through `Banner.Title`"
    else none
  else none

/-- A stand-alone invocation of one of the three sub-components named by the
spec's ContextMisuse property. -/
inductive SubComponent where
  | title (heading : Option String) (className : Option String)
      (restAttrs : List (String × String)) (content : String)
  | description (className : Option String)
      (restAttrs : List (String × String)) (content : String)
  | actions (primaryAction secondaryAction : Option Node)

/-- Invoking a sub-component in a render environment whose BannerContext
holds `ctx`. `BannerTitle` (lines 256-265) calls `useBanner` and can throw;
`BannerDescription` (lines 269-275) and `BannerActions` (lines 282-295)
never call `useBanner`, so their render does not consult `ctx` and always
succeeds. -/
def invokeSub (ctx : Option BannerContextValue) :
    SubComponent → Except String Node
  | .title h c r s => BannerTitle ctx h c r s
  | .description c r s => .ok (BannerDescription c r s)
  | .actions pa sa => .ok (BannerActions pa sa)

/-- Number of title sources a prop set supplies: one for a truthy `title`
prop, one per nested `Banner.Title` child. -/
def titleSources (p : BannerProps) : Nat :=
  (if p.title.isSome then 1 else 0) +
    (p.children.filter BannerChild.isTitle).length

/-- Whether a Banner child avoids claiming the identifier `i` on its own: a
Description child must not smuggle `id={i}` through its attribute spread
(a Title child's spread is overridden by the later fixed `id`, and opaque
content is text). In the source this always holds because `i` is generated
at mount and unknown to callers. -/
def childAvoidsId (i : String) : BannerChild → Bool
  | .descriptionChild _ restAttrs _ => getAttr restAttrs "id" != some i
  | _ => true

/-- Whether a prop set avoids claiming the identifier `i` through its
caller-controlled parts: the container spread, the action descriptor
subtrees, and the children. In the source this always holds because `i`
comes from `useId` and is unknown to callers. -/
def propsAvoidId (i : String) (p : BannerProps) : Bool :=
  (getAttr p.rest "id" != some i) &&
  (match p.primaryAction with
   | some n => Node.countId i n == 0
   | none => true) &&
  (match p.secondaryAction with
   | some n => Node.countId i n == 0
   | none => true) &&
  p.children.all (childAvoidsId i)

/-! ## General lemmas about the embedding -/

theorem getAttr_append_right (xs ys : List (String × String)) (key v : String)
    (h : getAttr ys key = some v) : getAttr (xs ++ ys) key = some v := by
  induction xs with
  | nil => simpa using h
  | cons p xs ih =>
    obtain ⟨k, w⟩ := p
    simp only [List.cons_append, getAttr, List.append_eq, ih]

theorem getAttr_append_left (xs ys : List (String × String)) (key : String)
    (h : getAttr ys key = none) : getAttr (xs ++ ys) key = getAttr xs key := by
  induction xs with
  | nil => simpa using h
  | cons p xs ih =>
    obtain ⟨k, w⟩ := p
    simp only [List.cons_append, getAttr, List.append_eq, ih]

theorem countIdList_append (i : String) (xs ys : List Node) :
    countIdList i (xs ++ ys) = countIdList i xs + countIdList i ys := by
  induction xs with
  | nil => simp [countIdList]
  | cons n ns ih => simp [countIdList, ih]; omega

theorem renderBannerChild_inside (v : BannerContextValue) (c : BannerChild) :
    renderBannerChild (some v) c = .ok (bannerChildView v c) := by
  cases c <;> rfl

/-- Unfolding lemma for `Node.countId` on an element. -/
theorem countId_element (i tag : String) (attrs : List (String × String))
    (cs : List Node) :
    Node.countId i (.element tag attrs cs) =
      (if getAttr attrs "id" = some i then 1 else 0) + countIdList i cs := by
  simp [Node.countId]

/-- Unfolding lemma for `countIdList` on a cons cell. -/
theorem countIdList_cons (i : String) (n : Node) (ns : List Node) :
    countIdList i (n :: ns) = Node.countId i n + countIdList i ns := by
  simp [countIdList]

theorem countIdList_nil (i : String) : countIdList i ([] : List Node) = 0 := by
  simp [countIdList]

/-- A heading rendered by BannerTitle inside a provider publishing `i`
claims exactly the identifier `i`, whatever its attribute spread: the fixed
`id={banner.titleId}` prop comes after the spread and wins. -/
theorem countId_titleView (i : String) (hd cl : Option String)
    (r : List (String × String)) (s : String) :
    Node.countId i (bannerTitleView ⟨i⟩ hd cl r s) = 1 := by
  simp only [bannerTitleView, Node.countId, countIdList]
  rw [getAttr_append_right r _ "id" i (by simp [getAttr])]
  simp

/-- A Description render claims no identifier unless its own spread smuggles
one in. -/
theorem countId_description (i : String) (cl : Option String)
    (r : List (String × String)) (s : String)
    (h : getAttr r "id" ≠ some i) :
    Node.countId i (BannerDescription cl r s) = 0 := by
  simp only [BannerDescription, Node.countId, countIdList]
  rw [getAttr_append_left r _ "id" (by simp [getAttr])]
  simp [h]

/-- Children rendered inside the provider claim the identifier exactly once
per Title child. -/
theorem countIdList_children (i : String) (cs : List BannerChild)
    (h : cs.all (childAvoidsId i) = true) :
    countIdList i (cs.map (bannerChildView ⟨i⟩)) =
      (cs.filter BannerChild.isTitle).length := by
  induction cs with
  | nil => simp [countIdList]
  | cons c cs ih =>
    simp only [List.all_cons, Bool.and_eq_true] at h
    cases c with
    | titleChild hd cl r s =>
      simp only [List.map_cons, countIdList, bannerChildView,
        countId_titleView, ih h.2, List.filter_cons, BannerChild.isTitle,
        List.length_cons]
      simp [Nat.add_comm]
    | descriptionChild cl r s =>
      have hid : getAttr r "id" ≠ some i := by
        simpa [childAvoidsId] using h.1
      simp only [List.map_cons, countIdList, bannerChildView,
        countId_description i cl r s hid, ih h.2, List.filter_cons,
        BannerChild.isTitle, List.length_cons]
      simp
    | content s =>
      simp only [List.map_cons, countIdList, bannerChildView, Node.countId,
        ih h.2, List.filter_cons, BannerChild.isTitle]
      simp

/-- The actions region claims no identifier when neither action descriptor
contains one. -/
theorem countId_actions (i : String) (pa sa : Option Node)
    (hpa : ∀ n, pa = some n → Node.countId i n = 0)
    (hsa : ∀ n, sa = some n → Node.countId i n = 0) :
    Node.countId i (BannerActions pa sa) = 0 := by
  have hp : countIdList i (optList pa) = 0 := by
    cases pa with
    | none => simp [optList, countIdList]
    | some n => simp [optList, countIdList, hpa n rfl]
  have hs : countIdList i (optList sa) = 0 := by
    cases sa with
    | none => simp [optList, countIdList]
    | some n => simp [optList, countIdList, hsa n rfl]
  simp only [BannerActions, hideOnSmArrangement, hideOnMdArrangement,
    Node.countId, countIdList, countIdList_append, hp, hs]
  simp [getAttr]

/-- Identifier census of a full Banner render: when the caller-controlled
parts do not reference the mount identifier (always true in the source,
where it comes from `useId`), the number of elements claiming the
identifier equals the number of title sources the props supply. -/
theorem countId_Banner (p : BannerProps) (i : String)
    (h : propsAvoidId i p = true) :
    Node.countId i (Banner p i) = titleSources p := by
  simp only [propsAvoidId, Bool.and_eq_true] at h
  obtain ⟨⟨⟨hrest, hpa⟩, hsa⟩, hch⟩ := h
  have hrest' : ¬ getAttr p.rest "id" = some i := by
    simpa using hrest
  have hpa' : ∀ n, p.primaryAction = some n → Node.countId i n = 0 := by
    intro n hn
    rw [hn] at hpa
    simpa using hpa
  have hsa' : ∀ n, p.secondaryAction = some n → Node.countId i n = 0 := by
    intro n hn
    rw [hn] at hsa
    simpa using hsa
  have hsect : getAttr (bannerSectionAttrs p i) "id" = getAttr p.rest "id" := by
    unfold bannerSectionAttrs
    exact getAttr_append_left _ _ _ (by simp [getAttr])
  have hicon : Node.countId i (bannerIconSlot p) = 0 := by
    unfold bannerIconSlot
    rw [countId_element]
    simp [countIdList, Node.countId, getAttr]
  have htitle :
      countIdList i
        (match p.title with
         | some t => [bannerTitleView ⟨i⟩ none none [] t]
         | none => []) = if p.title.isSome then 1 else 0 := by
    cases p.title with
    | none => simp [countIdList]
    | some t => simp [countIdList, countId_titleView]
  have hdesc :
      countIdList i
        (match p.description with
         | some d => [BannerDescription none [] d]
         | none => []) = 0 := by
    cases p.description with
    | none => simp [countIdList]
    | some d =>
      simp [countIdList, countId_description i none [] d (by simp [getAttr])]
  have hcontent : Node.countId i (bannerContentSlot p i) =
      (if p.title.isSome then 1 else 0) +
        (p.children.filter BannerChild.isTitle).length := by
    unfold bannerContentSlot
    rw [countId_element]
    rw [countIdList_append, countIdList_append, htitle, hdesc,
      countIdList_children i p.children hch]
    simp [getAttr]
  have hact :
      countIdList i
        (if hasActions p then
          [BannerActions p.primaryAction p.secondaryAction]
         else []) = 0 := by
    by_cases hA : hasActions p
    · rw [if_pos hA, countIdList_cons, countIdList_nil,
        countId_actions i p.primaryAction p.secondaryAction hpa' hsa']
    · rw [if_neg hA, countIdList_nil]
  have hcontainer : Node.countId i (bannerContainerSlot p i) =
      (if p.title.isSome then 1 else 0) +
        (p.children.filter BannerChild.isTitle).length := by
    unfold bannerContainerSlot
    rw [countId_element, countIdList_append, countIdList_cons,
      countIdList_nil, hcontent, hact]
    simp [getAttr]
  have hdismiss :
      countIdList i
        (if dismissible p then [bannerDismissControl] else []) = 0 := by
    by_cases hD : dismissible p
    · rw [if_pos hD, countIdList_cons, countIdList_nil]
      unfold bannerDismissControl
      rw [countId_element, countIdList_nil]
      simp [getAttr]
    · rw [if_neg hD, countIdList_nil]
  unfold Banner
  rw [countId_element, countIdList_append, countIdList_cons, countIdList_cons,
    countIdList_nil, hicon, hcontainer, hdismiss, hsect]
  rw [if_neg hrest']
  unfold titleSources
  omega

/-- A child list with no `Banner.Title` invocation filters to nothing. -/
theorem filter_isTitle_eq_nil (cs : List BannerChild)
    (h : cs.all (fun c => ! c.isTitle) = true) :
    cs.filter BannerChild.isTitle = [] := by
  induction cs with
  | nil => rfl
  | cons c cs ih =>
    simp only [List.all_cons, Bool.and_eq_true, Bool.not_eq_true'] at h
    simp [List.filter_cons, h.1, ih h.2]

/-- The effective value of any of the three fixed container attributes: the
pass-through spread comes first (Banner.tsx line 90), so the fixed attribute
written after it wins. -/
theorem attr_Banner (p : BannerProps) (i key v : String)
    (hv : getAttr
      [("aria-labelledby", i), ("data-variant", (resolvedVariant p).name),
       ("tabIndex", "-1")] key = some v) :
    Node.attr (Banner p i) key = some v := by
  unfold Banner
  show getAttr (bannerSectionAttrs p i) key = some v
  exact getAttr_append_right _ _ _ _ hv

/-! ## Claim theorems -/

/-- C1 (counterexample): a render that supplies a title both via the `title`
prop and via a nested Title sub-component — a render "in which a title is
supplied either via the `title` prop or via a nested Title sub-component" —
produces TWO elements whose id equals the mount identifier, not exactly
one: the root renders its own BannerTitle for the prop (line 94) and the
nested Title also binds the shared identifier (line 261). -/
theorem banner_title_id_cx :
    Node.countId "b1"
      (Banner { title := some "Alert",
                children := [.titleChild none none [] "Again"] } "b1") = 2 ∧
    ¬ Node.countId "b1"
        (Banner { title := some "Alert",
                  children := [.titleChild none none [] "Again"] } "b1") = 1 := by
  refine ⟨by decide, ?_⟩
  intro h
  have : (2 : Nat) = 1 := by
    rw [← h]
    decide
  exact absurd this (by decide)

/-- C1 (amended): when the caller-controlled parts cannot reference the
mount identifier (always true in the source, where it comes from `useId`)
and the title is supplied through exactly ONE source — the `title` prop or a
single nested Title sub-component, not both — exactly one element in the
rendered tree has an id equal to the identifier generated at mount, and the
container's `aria-labelledby` equals that same identifier. In general the
number of elements claiming the identifier equals the number of title
sources, so supplying the title through both mechanisms yields two. -/
theorem banner_title_id_unique (p : BannerProps) (i : String)
    (h1 : propsAvoidId i p = true) (h2 : titleSources p = 1) :
    Node.countId i (Banner p i) = 1 ∧
      Node.attr (Banner p i) "aria-labelledby" = some i := by
  refine ⟨?_, attr_Banner p i _ i (by simp [getAttr])⟩
  rw [countId_Banner p i h1, h2]

/-- C1 witness: a Banner with only a `title` prop, identifier "b1". -/
theorem banner_title_id_unique_witness :
    propsAvoidId "b1" { title := some "Alert" } = true ∧
    titleSources { title := some "Alert" } = 1 ∧
    (Node.countId "b1" (Banner { title := some "Alert" } "b1") = 1 ∧
      Node.attr (Banner { title := some "Alert" } "b1") "aria-labelledby" =
        some "b1") :=
  ⟨by decide, by decide,
    banner_title_id_unique { title := some "Alert" } "b1" (by decide) (by decide)⟩

/-- C2: the dismiss control appears among the container's children exactly
when the variant is not `critical` and the dismiss callback is present
(Banner.tsx lines 71 and 100-108): a critical banner with `onDismiss` never
renders it, every other variant with `onDismiss` does. -/
theorem banner_dismiss_iff (p : BannerProps) (i : String) :
    bannerDismissControl ∈ (Banner p i).childNodes ↔
      (resolvedVariant p ≠ .critical ∧ p.onDismiss = true) := by
  have hiff : dismissible p = true ↔
      (resolvedVariant p ≠ .critical ∧ p.onDismiss = true) := by
    simp [dismissible]
  by_cases hD : dismissible p = true
  · apply iff_of_true _ (hiff.mp hD)
    simp [Banner, Node.childNodes, hD]
  · apply iff_of_false
    · have hD' : dismissible p = false := by simpa using hD
      simp [Banner, Node.childNodes, hD', bannerDismissControl,
        bannerIconSlot, bannerContainerSlot]
    · exact fun hc => hD (hiff.mpr hc)

/-- C3 (counterexample): with both actions supplied, the arrangement visible
BELOW the 544px breakpoint is the `data-hide-on-md` one, ordered (primary,
then secondary) — not (secondary, then primary) as claimed: the default CSS
(line 211) sets `display: none` on `[data-hide-on-sm]`, which is the
(secondary, primary) subtree, so below the breakpoint the claim's ordering
is exactly inverted. -/
theorem banner_actions_ordering_cx :
    visibleAtWidth false
      (hideOnSmArrangement (some (.text "primary")) (some (.text "secondary")))
        = false ∧
    visibleAtWidth false
      (hideOnMdArrangement (some (.text "primary")) (some (.text "secondary")))
        = true ∧
    (hideOnMdArrangement (some (.text "primary"))
        (some (.text "secondary"))).childNodes =
      [.text "primary", .text "secondary"] ∧
    ¬ (hideOnMdArrangement (some (.text "primary"))
        (some (.text "secondary"))).childNodes =
      [.text "secondary", .text "primary"] := by
  refine ⟨rfl, rfl, rfl, ?_⟩
  simp [hideOnMdArrangement, optList, Node.childNodes]

/-- C3 (amended): whenever the actions region renders, both ordering
subtrees are always present simultaneously and visibility is switched by
breakpoint-keyed styling, never by conditional mounting — but the mapping is
the reverse of the claim: the (primary, then secondary) subtree
(`data-hide-on-md`) is the one visible below the breakpoint, and the
(secondary, then primary) subtree (`data-hide-on-sm`) is the one visible at
or above it. -/
theorem banner_actions_responsive (pa sa : Option Node) :
    BannerActions pa sa =
      .element "div" [("className", "BannerActions")]
        [hideOnSmArrangement pa sa, hideOnMdArrangement pa sa] ∧
    (hideOnSmArrangement pa sa).childNodes = optList sa ++ optList pa ∧
    (hideOnMdArrangement pa sa).childNodes = optList pa ++ optList sa ∧
    visibleAtWidth false (hideOnSmArrangement pa sa) = false ∧
    visibleAtWidth true (hideOnSmArrangement pa sa) = true ∧
    visibleAtWidth false (hideOnMdArrangement pa sa) = true ∧
    visibleAtWidth true (hideOnMdArrangement pa sa) = false := by
  refine ⟨rfl, rfl, rfl, ?_, ?_, ?_, ?_⟩ <;>
    simp [visibleAtWidth, hideOnSmArrangement, hideOnMdArrangement, getAttr]

/-- C4: with no explicit `icon` prop the icon slot renders the icon mapped
to the variant in the fixed table (Banner.tsx lines 53-59, 91); an explicit
`icon` prop always renders instead, regardless of the variant. -/
theorem banner_icon_resolution (p : BannerProps) (i : String) :
    (p.icon = none →
      (Banner p i).childNodes.head? =
        some (.element "div" [("className", "BannerIcon")]
          [.icon (iconForVariant (resolvedVariant p))])) ∧
    (∀ ic, p.icon = some ic →
      (Banner p i).childNodes.head? =
        some (.element "div" [("className", "BannerIcon")] [.icon ic])) := by
  constructor
  · intro h
    simp [Banner, Node.childNodes, bannerIconSlot, h]
  · intro ic h
    simp [Banner, Node.childNodes, bannerIconSlot, h]

/-- C4 witness: the default-info Banner renders the info icon; an explicit
XIcon on a critical Banner renders the XIcon. -/
theorem banner_icon_resolution_witness :
    (Banner ({} : BannerProps) "t").childNodes.head? =
      some (.element "div" [("className", "BannerIcon")] [.icon .InfoIcon]) ∧
    (Banner { icon := some .XIcon, variant := some .critical }
        "t").childNodes.head? =
      some (.element "div" [("className", "BannerIcon")] [.icon .XIcon]) :=
  ⟨(banner_icon_resolution {} "t").1 rfl,
   (banner_icon_resolution { icon := some .XIcon, variant := some .critical }
      "t").2 .XIcon rfl⟩

/-- C5 (counterexample): invoking the Description sub-component outside any
Banner root does NOT throw — `BannerDescription` (lines 269-275) never calls
`useBanner`, so its render succeeds with a null context; likewise Actions
(lines 282-295). This falsifies the claim that any of the three throws. -/
theorem subcomponent_outside_cx :
    (invokeSub none (.description none [] "d")).isOk = true ∧
    (invokeSub none (.actions none none)).isOk = true := by
  exact ⟨rfl, rfl⟩

/-- C5 (amended): only the Title sub-component throws the ContextMisuse
failure when invoked outside any Banner root's subtree (it reads the context
through `useBanner`, lines 256-265 and 320-326); the Description and
Actions sub-components never read the context and render without error. -/
theorem subcomponent_context_guard (hd cl : Option String)
    (r : List (String × String)) (s : String) (pa sa : Option Node) :
    invokeSub none (.title hd cl r s) =
      .error "Component must be used within a <Banner> component" ∧
    (invokeSub none (.description cl r s)).isOk = true ∧
    (invokeSub none (.actions pa sa)).isOk = true :=
  ⟨rfl, rfl, rfl⟩

/-- C6: a development-build render with neither a `title` prop nor a nested
Title sub-component trips the post-mount check (lines 74-86), which raises
the MissingAccessibleTitle error; the same props in a production build raise
nothing; and the returned tree is the same function of the props in both
builds, so the check never alters render output. -/
theorem missing_title_dev_check (p : BannerProps) (i : String)
    (h1 : propsAvoidId i p = true) (h2 : p.title = none)
    (h3 : p.children.all (fun c => ! c.isTitle) = true) :
    devTitleCheck true (Banner p i) i =
      some "The Banner component requires a title to be provided as the `title` prop or through `Banner.Title`" ∧
    devTitleCheck false (Banner p i) i = none ∧
    bannerRenderInBuild true p i = bannerRenderInBuild false p i := by
  have hzero : titleSources p = 0 := by
    unfold titleSources
    rw [h2, filter_isTitle_eq_nil p.children h3]
    simp
  have hcount : Node.countId i (Banner p i) = 0 := by
    rw [countId_Banner p i h1, hzero]
  exact ⟨by simp [devTitleCheck, hcount], by simp [devTitleCheck], rfl⟩

/-- C6 witness: a dev-build Banner with only a description, identifier
"b2". -/
theorem missing_title_dev_check_witness :
    propsAvoidId "b2" { description := some "d" } = true ∧
    ({ description := some "d" } : BannerProps).title = none ∧
    (devTitleCheck true (Banner { description := some "d" } "b2") "b2" =
        some "The Banner component requires a title to be provided as the `title` prop or through `Banner.Title`" ∧
      devTitleCheck false (Banner { description := some "d" } "b2") "b2" =
        none) :=
  ⟨by decide, rfl,
    ⟨(missing_title_dev_check { description := some "d" } "b2" (by decide) rfl
        (by decide)).1,
     (missing_title_dev_check { description := some "d" } "b2" (by decide) rfl
        (by decide)).2.1⟩⟩

/-- C7 (counterexample): a `variant` prop smuggled past the type system at
runtime lands in the rest spread, which is applied AFTER the fixed
`variant="default"` (line 301), so it overrides the fixed variant: the
underlying Button renders with variant "danger", not "default" — the claim
that the fixed variant wins "even if a caller attempts to pass a different
variant prop at runtime" fails. -/
theorem action_variant_override_cx :
    Node.attr (BannerPrimaryAction none [("variant", "danger")] []) "variant" =
      some "danger" ∧
    ¬ Node.attr (BannerPrimaryAction none [("variant", "danger")] [])
        "variant" = some "default" ∧
    Node.attr (BannerSecondaryAction none [("variant", "primary")] [])
        "variant" = some "primary" := by
  refine ⟨by decide, by decide, by decide⟩

/-- C7 (amended): for every prop set that does not carry a runtime `variant`
key — the only prop sets the components' types admit, since `variant` is
omitted from them — PrimaryAction renders its underlying Button with variant
"default" and SecondaryAction with variant "invisible"; a variant smuggled
in at runtime overrides the fixed one because the rest spread follows it. -/
theorem action_fixed_variant (cl : Option String)
    (r : List (String × String)) (ch : List Node)
    (h : getAttr r "variant" = none) :
    Node.attr (BannerPrimaryAction cl r ch) "variant" = some "default" ∧
    Node.attr (BannerSecondaryAction cl r ch) "variant" = some "invisible" := by
  constructor
  · have hr : Node.attr (BannerPrimaryAction cl r ch) "variant" =
        getAttr
          ([("className", cx "BannerPrimaryAction" cl),
            ("variant", "default")] ++ r) "variant" := rfl
    rw [hr, getAttr_append_left _ _ _ h]
    simp [getAttr]
  · have hr : Node.attr (BannerSecondaryAction cl r ch) "variant" =
        getAttr
          ([("className", cx "BannerPrimaryAction" cl),
            ("variant", "invisible")] ++ r) "variant" := rfl
    rw [hr, getAttr_append_left _ _ _ h]
    simp [getAttr]

/-- C7 witness: no runtime variant key, empty spread. -/
theorem action_fixed_variant_witness :
    getAttr [] "variant" = none ∧
    (Node.attr (BannerPrimaryAction none [] []) "variant" = some "default" ∧
      Node.attr (BannerSecondaryAction none [] []) "variant" =
        some "invisible") :=
  ⟨rfl, action_fixed_variant none [] [] rfl⟩

/-- C8: the container renders an actions region exactly when at least one of
`primaryAction`/`secondaryAction` is present (lines 72, 98): omitting both
renders no actions region; supplying either renders the region whose markup
holds exactly the two ordering arrangements (the `data-hide-on-sm` one and
the `data-hide-on-md` one), never zero and never more than two. -/
theorem banner_actions_region_iff (p : BannerProps) (i : String) :
    (p.primaryAction = none ∧ p.secondaryAction = none →
      bannerContainerSlot p i =
        .element "div" [("className", "BannerContainer")]
          [bannerContentSlot p i]) ∧
    (hasActions p = true →
      bannerContainerSlot p i =
        .element "div" [("className", "BannerContainer")]
          [bannerContentSlot p i,
           BannerActions p.primaryAction p.secondaryAction] ∧
      (BannerActions p.primaryAction p.secondaryAction).childNodes =
        [hideOnSmArrangement p.primaryAction p.secondaryAction,
         hideOnMdArrangement p.primaryAction p.secondaryAction] ∧
      (BannerActions p.primaryAction p.secondaryAction).childNodes.length =
        2) := by
  constructor
  · rintro ⟨h1, h2⟩
    have hA : hasActions p = false := by
      simp [hasActions, h1, h2]
    simp [bannerContainerSlot, hA]
  · intro hA
    refine ⟨by simp [bannerContainerSlot, hA], rfl, rfl⟩

/-- C8 witness: no actions on one side; a primary action on the other. -/
theorem banner_actions_region_iff_witness :
    bannerContainerSlot ({} : BannerProps) "t" =
      .element "div" [("className", "BannerContainer")]
        [bannerContentSlot {} "t"] ∧
    (bannerContainerSlot { primaryAction := some (.text "ok") } "t" =
        .element "div" [("className", "BannerContainer")]
          [bannerContentSlot { primaryAction := some (.text "ok") } "t",
           BannerActions (some (.text "ok")) none] ∧
      (BannerActions (some (.text "ok")) none).childNodes.length = 2) :=
  ⟨(banner_actions_region_iff {} "t").1 ⟨rfl, rfl⟩,
   ⟨((banner_actions_region_iff { primaryAction := some (.text "ok") }
        "t").2 rfl).1,
    ((banner_actions_region_iff { primaryAction := some (.text "ok") }
        "t").2 rfl).2.2⟩⟩

/-- C9: whatever pass-through attributes the caller supplies, the rendered
container's `aria-labelledby`, `data-variant` and `tabIndex` equal the
component-computed values — the spread comes before the fixed attributes
(line 90), so it can never override them. -/
theorem banner_fixed_attributes (p : BannerProps) (i : String) :
    Node.attr (Banner p i) "aria-labelledby" = some i ∧
    Node.attr (Banner p i) "data-variant" = some (resolvedVariant p).name ∧
    Node.attr (Banner p i) "tabIndex" = some "-1" :=
  ⟨attr_Banner p i _ _ (by simp [getAttr]),
   attr_Banner p i _ _ (by simp [getAttr]),
   attr_Banner p i _ _ (by simp [getAttr])⟩

/-- C10: the SecondaryAction sub-component renders its underlying Button
with the class name `BannerPrimaryAction` — the very class PrimaryAction
uses, not a secondary-specific one (line 311) — merged with any
caller-supplied className; the hypothesis records that the destructuring at
line 309 removes `className` from the rest spread. -/
theorem secondary_action_className (cl : Option String)
    (r : List (String × String)) (ch : List Node)
    (h : getAttr r "className" = none) :
    Node.attr (BannerSecondaryAction cl r ch) "className" =
      some (cx "BannerPrimaryAction" cl) ∧
    Node.attr (BannerPrimaryAction cl r ch) "className" =
      some (cx "BannerPrimaryAction" cl) := by
  constructor
  · have hr : Node.attr (BannerSecondaryAction cl r ch) "className" =
        getAttr
          ([("className", cx "BannerPrimaryAction" cl),
            ("variant", "invisible")] ++ r) "className" := rfl
    rw [hr, getAttr_append_left _ _ _ h]
    simp [getAttr]
  · have hr : Node.attr (BannerPrimaryAction cl r ch) "className" =
        getAttr
          ([("className", cx "BannerPrimaryAction" cl),
            ("variant", "default")] ++ r) "className" := rfl
    rw [hr, getAttr_append_left _ _ _ h]
    simp [getAttr]

/-- C10 witness: a caller-supplied class "custom" merges after the fixed
class. -/
theorem secondary_action_className_witness :
    getAttr [] "className" = none ∧
    (Node.attr (BannerSecondaryAction (some "custom") [] []) "className" =
        some "BannerPrimaryAction custom" ∧
      Node.attr (BannerPrimaryAction (some "custom") [] []) "className" =
        some "BannerPrimaryAction custom") :=
  ⟨rfl, secondary_action_className (some "custom") [] [] rfl⟩
